import Mathlib

/-!
Verification development for a contacts-management backend (FastAPI + SQLAlchemy).

The embedding below translates the handler logic of `src/routes.py` (the
authenticated application), the token module `src/auth.py`, and the draft
birthday query of `src/main.py` into executable Lean definitions.

Modelling conventions:
- Database sessions become an explicit `Db` value (lists of rows plus
  autoincrement counters); `query(...).filter(...).first()` becomes
  `List.find?`, `.all()` becomes `List.filter`, an ORM in-place mutation of
  the first matching row becomes `updateFirst`, `db.delete` becomes
  `removeFirst`.
- A handler that can `raise HTTPException` returns `Resp α`; an uncaught
  Python exception (e.g. a `KeyError` or a redis connection error) is the
  distinguished constructor `Resp.pyError`, so that "raises HTTP 401" and
  "crashes with an unhandled exception" are distinguishable outcomes.
- JWT strings are modelled symbolically by the inductive `Token`: a value
  `Token.signed claims key` stands for the compact encoding of `claims`
  signed with `key`; distinct claim sets give distinct strings, so equality
  of `Token` values models string identity of encoded tokens.
- Wall-clock time is an explicit `now : Nat` parameter (seconds).
- The bcrypt primitive behind `hash_password` / `verify_password` is an
  external collaborator; it is modelled by its contract (deterministic
  verification, output syntactically a tagged string distinct from the
  plaintext).
-/

/-- Calendar date, mirroring Python `datetime.date` as used by the code. -/
structure Date where
  year : Nat
  month : Nat
  day : Nat
deriving DecidableEq, Repr

/-- Gregorian leap-year rule, as in Python's `datetime`. -/
def isLeap (y : Nat) : Bool :=
  (y % 4 == 0 && y % 100 != 0) || y % 400 == 0

/-- Number of days of month `m` in year `y`. -/
def daysInMonth (y m : Nat) : Nat :=
  if m == 2 then (if isLeap y then 29 else 28)
  else if m == 4 || m == 6 || m == 9 || m == 11 then 30
  else 31

/-- Successor day in the calendar. -/
def nextDay (d : Date) : Date :=
  if d.day < daysInMonth d.year d.month then ⟨d.year, d.month, d.day + 1⟩
  else if d.month < 12 then ⟨d.year, d.month + 1, 1⟩
  else ⟨d.year + 1, 1, 1⟩

/-- Date plus `n` days, mirroring `date + timedelta(days=n)`. -/
def addDays (d : Date) : Nat → Date
  | 0 => d
  | n + 1 => addDays (nextDay d) n

/-- Calendar order on dates (year, then month, then day). -/
def dateLe (a b : Date) : Bool :=
  a.year < b.year ||
    (a.year == b.year &&
      (a.month < b.month || (a.month == b.month && a.day ≤ b.day)))

/-- Lower-cased character list of a string, used to model SQL `ilike`. -/
def lowerChars (s : String) : List Char :=
  s.data.map Char.toLower

/-- Whether `pat` is an initial segment of `l` (executable). -/
def beginsWith : List Char → List Char → Bool
  | _, [] => true
  | [], _ :: _ => false
  | a :: l, b :: m => (a == b) && beginsWith l m

/-- Whether `needle` occurs contiguously inside `hay` (executable). -/
def hasSub (hay needle : List Char) : Bool :=
  match hay with
  | [] => needle.isEmpty
  | _ :: t => beginsWith hay needle || hasSub t needle

/-- Whether `f` accepts some suffix of the list (the list itself and the
empty suffix included). -/
def anySuffix (f : List Char → Bool) : List Char → Bool
  | [] => f []
  | h :: t => f (h :: t) || anySuffix f t

/-- One non-`%` pattern character against the target: `_` consumes any
single character, any other character consumes exactly itself. -/
def likeMatchAux (c : Char) (rest : List Char → Bool) : List Char → Bool
  | [] => false
  | h :: t => (c == '_' || h == c) && rest t

/-- SQL `LIKE` pattern matching: `%` matches any (possibly empty) run of
characters, `_` matches exactly one character, every other pattern
character matches itself. -/
def likeMatch : List Char → List Char → Bool
  | [] => fun hay => hay.isEmpty
  | c :: ps =>
    if c = '%' then anySuffix (likeMatch ps) else likeMatchAux c (likeMatch ps)

/-- The pattern that `ilike(f"%{query}%")` sends to the database: a `%`
wildcard on each side of the raw query, whose own `%` and `_` characters
remain wildcards because the code applies no escaping.  `ILIKE`'s case
insensitivity is modelled by lowering the literal characters of both
pattern and target (`%` and `_` are unaffected by lowering).  A backend's
non-standard default escape character (no `ESCAPE` clause is generated,
and the backend is environment-configured) is not modelled. -/
def sqlPattern (query : String) : List Char :=
  '%' :: (lowerChars query ++ ['%'])

/-- Model of SQL `column ILIKE '%query%'`: the SQL pattern built from the
unescaped query, matched against the lowered column text. -/
def ilike_contains (s query : String) : Bool :=
  likeMatch (sqlPattern query) (lowerChars s)

/-- Replace the first element satisfying `p` by its image under `f`
(the effect of mutating the row returned by `.filter(p).first()`). -/
def updateFirst (p : α → Bool) (f : α → α) : List α → List α
  | [] => []
  | x :: xs => if p x then f x :: xs else x :: updateFirst p f xs

/-- Remove the first element satisfying `p` (the effect of `db.delete` on the
row returned by `.filter(p).first()`). -/
def removeFirst (p : α → Bool) : List α → List α
  | [] => []
  | x :: xs => if p x then xs else x :: removeFirst p xs

/-! ## Token codec and password hashing (`src/auth.py`) -/

/-- Environment-provided auth configuration (`SECRET_KEY`,
`ACCESS_TOKEN_EXPIRE_MINUTES` from `src/auth.py`). -/
structure AuthCfg where
  secret : String
  access_minutes : Nat
deriving DecidableEq, Repr

/-- Fixed refresh-token lifetime (`REFRESH_TOKEN_EXPIRE_DAYS = 7` in
`src/auth.py`). -/
def REFRESH_TOKEN_EXPIRE_DAYS : Nat := 7

/-- Hash of a plaintext password.  The bcrypt primitive (passlib) is an
external collaborator; it is modelled by its contract: deterministic for
verification purposes and producing a tagged output string (real bcrypt
hashes begin with a `$2b$` version marker), hence never equal to the
plaintext. -/
def hash_password (password : String) : String :=
  "$2b$12$" ++ password

/-- Whether `plain` matches the stored hash (model of
`pwd_context.verify`). -/
def verify_password (plain hashed : String) : Bool :=
  hashed == hash_password plain

/-- Decoded JWT claim set as used by this code base: an optional `sub`
claim and an optional `exp` claim.  A payload with no claims at all models
the empty dict `{}`, which is falsy in Python. -/
structure Payload where
  sub : Option String
  exp : Option Nat
deriving DecidableEq, Repr

/-- Whether the payload models the falsy empty dict. -/
def Payload.isFalsy (p : Payload) : Bool :=
  p.sub == none && p.exp == none

/-- Symbolic JWT string: either the compact encoding of a claim set signed
with a key, or a string that is not a well-formed token at all. -/
inductive Token where
  | signed (claims : Payload) (key : String)
  | malformed (raw : String)
deriving DecidableEq, Repr

/-- The `sub` claim carried by a token, when it is well-formed and has
one. -/
def Token.subjectClaim : Token → Option String
  | .signed claims _ => claims.sub
  | .malformed _ => none

/-- Model of `create_access_token(data, expires_delta=None)`: add an `exp`
claim `now + expires_delta` (default `ACCESS_TOKEN_EXPIRE_MINUTES` minutes)
and sign with the secret. -/
def create_access_token (cfg : AuthCfg) (data : Payload)
    (expires_delta : Option Nat) (now : Nat) : Token :=
  let delta := match expires_delta with
    | some d => d
    | none => cfg.access_minutes * 60
  Token.signed { data with exp := some (now + delta) } cfg.secret

/-- Model of `create_refresh_token(data)`: add an `exp` claim seven days
out and sign with the secret. -/
def create_refresh_token (cfg : AuthCfg) (data : Payload) (now : Nat) : Token :=
  Token.signed { data with exp := some (now + REFRESH_TOKEN_EXPIRE_DAYS * 86400) }
    cfg.secret

/-- Model of `decode_token`: `jwt.decode` succeeds exactly on tokens signed
with the configured secret whose `exp` claim (if any) lies in the future;
every failure (malformed string, wrong key, expired claim — jose raises
`JWTError` subclasses for all of these) is caught by the `except JWTError`
clause and becomes `None`. -/
def decode_token (cfg : AuthCfg) (t : Token) (now : Nat) : Option Payload :=
  match t with
  | .malformed _ => none
  | .signed claims key =>
    if key == cfg.secret then
      match claims.exp with
      | some e => if e ≤ now then none else some claims
      | none => some claims
    else none

/-! ## Data model (`src/models.py` fields as used by `src/routes.py`;
`src/schemas.py`) -/

/-- User row.  Field set follows the columns `src/routes.py` actually
reads and writes (`models.py` in the repository is a stale draft lacking
`is_verified` and the contact profile columns). -/
structure User where
  id : Nat
  email : String
  hashed_password : String
  is_verified : Bool
  refresh_token : Option Token
  avatar_url : Option String
deriving DecidableEq, Repr

/-- Contact row, owned by `user_id` (columns as used by `src/routes.py`
and declared by `src/schemas.py`). -/
structure Contact where
  id : Nat
  user_id : Nat
  first_name : String
  last_name : String
  email : String
  phone_number : String
  birthday : Date
  additional_info : Option String
deriving DecidableEq, Repr

/-- Request body for creating or fully replacing a contact
(`schemas.ContactCreate`). -/
structure ContactCreate where
  first_name : String
  last_name : String
  email : String
  phone_number : String
  birthday : Date
  additional_info : Option String
deriving DecidableEq, Repr

/-- The durable store: user and contact tables plus autoincrement
counters. -/
structure Db where
  users : List User
  contacts : List Contact
  next_user_id : Nat
  next_contact_id : Nat
deriving DecidableEq, Repr

/-- Outcome of a route handler: a value, an `HTTPException` with status
code and detail, or an uncaught Python exception. -/
inductive Resp (α : Type) where
  | ok (val : α)
  | httpError (code : Nat) (detail : String)
  | pyError (msg : String)
deriving DecidableEq, Repr

/-- Body of a successful `/login` or `/refresh`:
`{"access_token": ..., "refresh_token": ...}`. -/
structure TokenPair where
  access_token : Token
  refresh_token : Token
deriving DecidableEq, Repr

/-- Body of a successful `/register` (id and email; the static message is
omitted). -/
structure RegisterResult where
  id : Nat
  email : String
deriving DecidableEq, Repr

/-! ## Route handlers (`src/routes.py`) -/

namespace Routes

/-- Model of `POST /register` (`src/routes.py` lines 48-79): reject with
409 when a user with the email already exists, otherwise insert a new
unverified user with the hashed password. -/
def register (db : Db) (email password : String) : Resp RegisterResult × Db :=
  match db.users.find? (fun u => u.email == email) with
  | some _ => (Resp.httpError 409 "User already exists", db)
  | none =>
    let new_user : User :=
      { id := db.next_user_id
        email := email
        hashed_password := hash_password password
        is_verified := false
        refresh_token := none
        avatar_url := none }
    (Resp.ok { id := new_user.id, email := new_user.email },
     { db with users := db.users ++ [new_user],
               next_user_id := db.next_user_id + 1 })

/-- Model of `POST /login` (`src/routes.py` lines 107-137): check
credentials, mint both tokens, persist the refresh token on the user row,
then write a cache entry.  `cache_ok` is whether the `redis_client.set`
call succeeds; the source wraps it in no `try`/`except`, so a failing set
raises out of the handler after the commit. -/
def login (cfg : AuthCfg) (db : Db) (email password : String) (now : Nat)
    (cache_ok : Bool) : Resp TokenPair × Db :=
  match db.users.find? (fun u => u.email == email) with
  | none => (Resp.httpError 401 "Invalid credentials", db)
  | some db_user =>
    if verify_password password db_user.hashed_password then
      let access := create_access_token cfg { sub := some db_user.email, exp := none } none now
      let refresh := create_refresh_token cfg { sub := some db_user.email, exp := none } now
      let db2 : Db :=
        { db with users :=
            (updateFirst (fun u => u.email == email)
              (fun u => { u with refresh_token := some refresh }) db.users) }
      if cache_ok then
        (Resp.ok { access_token := access, refresh_token := refresh }, db2)
      else
        (Resp.pyError "redis connection error", db2)
    else (Resp.httpError 401 "Invalid credentials", db)

/-- Model of `POST /refresh` (`src/routes.py` lines 139-165): decode the
presented token (falsy payload → 401), read its `sub` claim (a `KeyError`
if absent), look the user up, require string identity with the stored
refresh token, and answer with a fresh access token and the presented
refresh token echoed back.  No row is written. -/
def refresh_token (cfg : AuthCfg) (db : Db) (t : Token) (now : Nat) :
    Resp TokenPair × Db :=
  match decode_token cfg t now with
  | none => (Resp.httpError 401 "Invalid refresh token", db)
  | some payload =>
    if payload.isFalsy then (Resp.httpError 401 "Invalid refresh token", db)
    else
      match payload.sub with
      | none => (Resp.pyError "KeyError: sub", db)
      | some s =>
        match db.users.find? (fun u => u.email == s) with
        | none => (Resp.httpError 401 "Invalid refresh token", db)
        | some db_user =>
          if db_user.refresh_token == some t then
            (Resp.ok
              { access_token :=
                  create_access_token cfg { sub := some db_user.email, exp := none } none now
                refresh_token := t }, db)
          else (Resp.httpError 401 "Invalid refresh token", db)

/-- Model of `get_current_user` (`src/routes.py` lines 167-190): decode the
bearer token (falsy payload → 401), read `payload["sub"]` (a `KeyError` if
the claim is absent), and look the user up by email. -/
def get_current_user (cfg : AuthCfg) (db : Db) (token : Token) (now : Nat) :
    Resp User :=
  match decode_token cfg token now with
  | none => Resp.httpError 401 "Invalid token"
  | some payload =>
    if payload.isFalsy then Resp.httpError 401 "Invalid token"
    else
      match payload.sub with
      | none => Resp.pyError "KeyError: sub"
      | some s =>
        match db.users.find? (fun u => u.email == s) with
        | none => Resp.httpError 401 "User not found"
        | some u => Resp.ok u

/-- Ownership-scoped lookup predicate shared by the contact detail routes:
`Contact.id == contact_id, Contact.user_id == current_user.id`. -/
def ownedWithId (current_user : User) (contact_id : Nat) (c : Contact) : Bool :=
  c.id == contact_id && c.user_id == current_user.id

/-- Model of `GET /contacts/{id}` (`src/routes.py` lines 228-247). -/
def get_contact (db : Db) (current_user : User) (contact_id : Nat) : Resp Contact :=
  match db.contacts.find? (ownedWithId current_user contact_id) with
  | none => Resp.httpError 404 "Contact not found"
  | some c => Resp.ok c

/-- Full replacement of the profile fields of a contact row by a
`ContactCreate` body (the `setattr` loop of `update_contact`). -/
def applyUpdate (updated : ContactCreate) (c : Contact) : Contact :=
  { c with first_name := updated.first_name
           last_name := updated.last_name
           email := updated.email
           phone_number := updated.phone_number
           birthday := updated.birthday
           additional_info := updated.additional_info }

/-- Model of `PUT /contacts/{id}` (`src/routes.py` lines 249-275). -/
def update_contact (db : Db) (current_user : User) (contact_id : Nat)
    (updated : ContactCreate) : Resp Contact × Db :=
  match db.contacts.find? (ownedWithId current_user contact_id) with
  | none => (Resp.httpError 404 "Contact not found", db)
  | some c =>
    (Resp.ok (applyUpdate updated c),
     { db with contacts :=
         (updateFirst (ownedWithId current_user contact_id)
           (applyUpdate updated) db.contacts) })

/-- Model of `DELETE /contacts/{id}` (`src/routes.py` lines 277-299). -/
def delete_contact (db : Db) (current_user : User) (contact_id : Nat) :
    Resp String × Db :=
  match db.contacts.find? (ownedWithId current_user contact_id) with
  | none => (Resp.httpError 404 "Contact not found", db)
  | some _ =>
    (Resp.ok "Contact deleted",
     { db with contacts :=
         removeFirst (ownedWithId current_user contact_id) db.contacts })

/-- Model of `GET /contacts/search/` (`src/routes.py` lines 301-320):
owner-scoped case-insensitive substring match over first name, last name
and email. -/
def search_contacts (db : Db) (current_user : User) (query : String) :
    List Contact :=
  db.contacts.filter (fun c =>
    c.user_id == current_user.id &&
      (ilike_contains c.first_name query ||
       ilike_contains c.last_name query ||
       ilike_contains c.email query))

/-- Model of `GET /contacts/birthdays/` (`src/routes.py` lines 322-340):
owner-scoped filter `Contact.birthday.between(today, today + 7 days)` on
the stored birthday date, year included. -/
def get_upcoming_birthdays (db : Db) (current_user : User) (today : Date) :
    List Contact :=
  let next_week := addDays today 7
  db.contacts.filter (fun c =>
    c.user_id == current_user.id &&
      dateLe today c.birthday && dateLe c.birthday next_week)

end Routes

/-! ## Draft birthday query (`src/main.py`) -/

namespace MainApp

/-- Model of `GET /contacts/upcoming-birthdays/` in `src/main.py` lines
105-120: month/day comparison against today (no owner scoping exists in
that draft), plus a second query for the head of `next_week`'s month when
the window leaves the current month. -/
def get_upcoming_birthdays (contacts : List Contact) (today : Date) :
    List Contact :=
  let next_week := addDays today 7
  let current := contacts.filter (fun c =>
    c.birthday.month == today.month && today.day ≤ c.birthday.day)
  if today.month ≠ next_week.month then
    current ++ contacts.filter (fun c =>
      c.birthday.month == next_week.month && c.birthday.day ≤ next_week.day)
  else current

end MainApp

/-- Follows the spec's words (claim C1), for comparison with the code:
the birthday is treated as a recurring month/day event, projected onto the
reference year — and onto the following year when the 7-day window crosses
the December→January boundary — and the projection must fall within the
inclusive window `[referenceDate, referenceDate + 7 days]`. -/
def spec_birthdayInWindow (today birthday : Date) : Bool :=
  let next_week := addDays today 7
  let thisYear : Date := ⟨today.year, birthday.month, birthday.day⟩
  let nextYear : Date := ⟨today.year + 1, birthday.month, birthday.day⟩
  (dateLe today thisYear && dateLe thisYear next_week) ||
    (today.year != next_week.year &&
      dateLe today nextYear && dateLe nextYear next_week)

/-! ## Supporting lemmas -/

/-- The empty pattern occurs in every string. -/
theorem hasSub_nil (hay : List Char) : hasSub hay [] = true := by
  induction hay with
  | nil => rfl
  | cons a t ih => simp [hasSub, beginsWith]

/-- `beginsWith` decides the prefix relation. -/
theorem beginsWith_iff (pat : List Char) : ∀ l, beginsWith l pat = true ↔ pat <+: l := by
  induction pat with
  | nil => intro l; cases l <;> simp [beginsWith]
  | cons b m ih =>
    intro l
    cases l with
    | nil => simp [beginsWith]
    | cons a t =>
      simp only [beginsWith, List.cons_prefix_cons, ih, Bool.and_eq_true, beq_iff_eq]
      exact and_congr_left fun _ => eq_comm

/-- `hasSub` decides the contiguous-substring (infix) relation. -/
theorem hasSub_iff (hay needle : List Char) :
    hasSub hay needle = true ↔ needle <:+: hay := by
  induction hay with
  | nil => simp [hasSub, List.isEmpty_iff, List.infix_nil]
  | cons a t ih =>
    simp [hasSub, Bool.or_eq_true, beginsWith_iff, ih, List.infix_cons_iff]

/-- Updating the first row matched by `p` with a `p`-preserving function
commutes with looking that row up again. -/
theorem find?_updateFirst (p : α → Bool) (f : α → α) (l : List α)
    (hf : ∀ a, p a = true → p (f a) = true) :
    (updateFirst p f l).find? p = (l.find? p).map f := by
  induction l with
  | nil => rfl
  | cons x xs ih =>
    by_cases hx : p x = true
    · simp [updateFirst, hx, List.find?_cons_of_pos, hf x hx]
    · simp [updateFirst, hx, List.find?_cons_of_neg, ih]

/-! ## Concrete fixtures for witnesses and counterexamples -/

/-- Concrete auth configuration. -/
def cfg0 : AuthCfg := { secret := "s3cret", access_minutes := 15 }

/-- Registered user owning one contact. -/
def alice : User :=
  { id := 1, email := "a@x.com", hashed_password := hash_password "secret1",
    is_verified := true, refresh_token := none, avatar_url := none }

/-- A second registered user, owning nothing. -/
def bob : User :=
  { id := 2, email := "b@x.com", hashed_password := hash_password "secret2",
    is_verified := true, refresh_token := none, avatar_url := none }

/-- Contact owned by `alice`. -/
def aliceContact : Contact :=
  { id := 1, user_id := 1, first_name := "Ann", last_name := "Lee",
    email := "ann@x.com", phone_number := "111", birthday := ⟨1991, 6, 15⟩,
    additional_info := none }

/-- A replacement body for update requests. -/
def uc0 : ContactCreate :=
  { first_name := "New", last_name := "Name", email := "new@x.com",
    phone_number := "222", birthday := ⟨1992, 7, 16⟩, additional_info := none }

/-- Store with two users and one contact owned by `alice`. -/
def db0 : Db :=
  { users := [alice, bob], contacts := [aliceContact],
    next_user_id := 3, next_contact_id := 2 }

/-- Contact whose recurring birthday is January 2 (born 1990). -/
def cJan2 : Contact :=
  { id := 1, user_id := 1, first_name := "Jan", last_name := "Second",
    email := "j@x.com", phone_number := "1", birthday := ⟨1990, 1, 2⟩,
    additional_info := none }

/-- Contact whose recurring birthday is December 20 (born 1990). -/
def cDec20 : Contact :=
  { id := 2, user_id := 1, first_name := "Dec", last_name := "Twenty",
    email := "d@x.com", phone_number := "2", birthday := ⟨1990, 12, 20⟩,
    additional_info := none }

/-- Contact whose recurring birthday is March 25 (born 1990). -/
def cMar25 : Contact :=
  { id := 3, user_id := 1, first_name := "Mar", last_name := "TwentyFive",
    email := "m@x.com", phone_number := "3", birthday := ⟨1990, 3, 25⟩,
    additional_info := none }

/-- Store holding the three birthday contacts, all owned by `alice`. -/
def dbBirthdays : Db :=
  { users := [alice], contacts := [cJan2, cDec20, cMar25],
    next_user_id := 2, next_contact_id := 4 }

/-! ## Claim C2 -/

/-- C2: for an authenticated user and a contact id such that no contact
with that id is owned by the caller — whether the id does not exist at all
or the contact belongs to another user — `get`, `update` and `delete` all
answer the identical `404 Contact not found`, and the store is unchanged. -/
theorem contact_routes_notFound_uniform
    (db : Db) (cu : User) (contact_id : Nat) (uc : ContactCreate)
    (h : ∀ c ∈ db.contacts, c.id = contact_id → c.user_id ≠ cu.id) :
    Routes.get_contact db cu contact_id = Resp.httpError 404 "Contact not found" ∧
    Routes.update_contact db cu contact_id uc =
      (Resp.httpError 404 "Contact not found", db) ∧
    Routes.delete_contact db cu contact_id =
      (Resp.httpError 404 "Contact not found", db) := by
  have hnone : db.contacts.find? (Routes.ownedWithId cu contact_id) = none := by
    rw [List.find?_eq_none]
    intro c hc
    simp only [Routes.ownedWithId, Bool.and_eq_true, beq_iff_eq, not_and]
    intro hid hu
    exact h c hc hid hu
  simp [Routes.get_contact, Routes.update_contact, Routes.delete_contact, hnone]

/-- Witness for C2: `bob` probing `alice`'s contact id. -/
theorem contact_routes_notFound_uniform_witness :
    Routes.get_contact db0 bob 1 = Resp.httpError 404 "Contact not found" ∧
    Routes.update_contact db0 bob 1 uc0 =
      (Resp.httpError 404 "Contact not found", db0) ∧
    Routes.delete_contact db0 bob 1 =
      (Resp.httpError 404 "Contact not found", db0) :=
  contact_routes_notFound_uniform db0 bob 1 uc0 (by decide)

/-! ## Claim C8 -/

/-- C8: registering an already-present email answers `409 Conflict` and
leaves the store untouched; otherwise exactly one new user is appended,
unverified, storing the hash of the password — which is never the
plaintext itself. -/
theorem register_conflict_or_creates
    (db : Db) (email password : String) :
    ((∃ u ∈ db.users, u.email = email) →
       Routes.register db email password =
         (Resp.httpError 409 "User already exists", db)) ∧
    ((∀ u ∈ db.users, u.email ≠ email) →
       Routes.register db email password =
         (Resp.ok { id := db.next_user_id, email := email },
          { db with
              users := db.users ++
                [{ id := db.next_user_id, email := email,
                   hashed_password := hash_password password,
                   is_verified := false, refresh_token := none,
                   avatar_url := none }],
              next_user_id := db.next_user_id + 1 }) ∧
       hash_password password ≠ password) := by
  constructor
  · intro h
    have hsome : (db.users.find? (fun u => u.email == email)).isSome := by
      rw [List.find?_isSome]
      obtain ⟨u, hu, he⟩ := h
      exact ⟨u, hu, by simp [he]⟩
    obtain ⟨w, hw⟩ := Option.isSome_iff_exists.mp hsome
    simp [Routes.register, hw]
  · intro h
    have hnone : db.users.find? (fun u => u.email == email) = none := by
      rw [List.find?_eq_none]
      intro u hu
      simp [h u hu]
    refine ⟨by simp [Routes.register, hnone], fun hcontra => ?_⟩
    have hlen := congrArg String.length hcontra
    rw [hash_password, String.length_append] at hlen
    have h7 : ("$2b$12$" : String).length = 7 := rfl
    rw [h7] at hlen
    omega

/-- Witness for C8: duplicate registration of `alice`'s email conflicts,
and a stored hash differs from its plaintext. -/
theorem register_conflict_or_creates_witness :
    Routes.register db0 "a@x.com" "pw12345" =
      (Resp.httpError 409 "User already exists", db0) ∧
    hash_password "pw12345" ≠ "pw12345" :=
  ⟨(register_conflict_or_creates db0 "a@x.com" "pw12345").1 (by decide),
   ((register_conflict_or_creates db0 "c@x.com" "pw12345").2 (by decide)).2⟩

/-! ## Claim C9 -/

theorem anySuffix_eq_true_iff (f : List Char → Bool) (hay : List Char) :
    anySuffix f hay = true ↔ ∃ t, t <:+ hay ∧ f t = true := by
  induction hay with
  | nil => simp [anySuffix, List.suffix_nil]
  | cons h tl ih =>
    simp [anySuffix, Bool.or_eq_true, ih, List.suffix_cons_iff, or_and_right, exists_or]

theorem anySuffix_isEmpty (hay : List Char) : anySuffix (fun l => l.isEmpty) hay = true := by
  induction hay with
  | nil => rfl
  | cons h t ih => simp [anySuffix, ih]

theorem likeMatch_literal (P : List Char) :
    (∀ ch ∈ P, ch ≠ '%' ∧ ch ≠ '_') →
    ∀ hay, likeMatch P hay = true ↔ hay = P := by
  induction P with
  | nil => intro _ hay; simp [likeMatch, List.isEmpty_iff]
  | cons c ps ih =>
    intro hlit hay
    have hc : c ≠ '%' ∧ c ≠ '_' := hlit c (List.mem_cons_self c ps)
    have hps : ∀ ch ∈ ps, ch ≠ '%' ∧ ch ≠ '_' :=
      fun ch hch => hlit ch (List.mem_cons_of_mem c hch)
    cases hay with
    | nil => simp [likeMatch, hc.1, likeMatchAux]
    | cons h t =>
      simp only [likeMatch, if_neg hc.1, likeMatchAux, Bool.and_eq_true, Bool.or_eq_true,
        beq_iff_eq, ih hps t, List.cons.injEq, List.append_eq]
      constructor
      · rintro ⟨h1 | h1, h2⟩
        · exact absurd h1 hc.2
        · exact ⟨h1, h2⟩
      · rintro ⟨h1, h2⟩
        exact ⟨Or.inr h1, h2⟩

theorem likeMatch_literal_percent (P : List Char) :
    (∀ ch ∈ P, ch ≠ '%' ∧ ch ≠ '_') →
    ∀ hay, likeMatch (P ++ ['%']) hay = true ↔ P <+: hay := by
  induction P with
  | nil =>
    intro _ hay
    simp [likeMatch, anySuffix_isEmpty, List.nil_prefix]
  | cons c ps ih =>
    intro hlit hay
    have hc : c ≠ '%' ∧ c ≠ '_' := hlit c (List.mem_cons_self c ps)
    have hps : ∀ ch ∈ ps, ch ≠ '%' ∧ ch ≠ '_' :=
      fun ch hch => hlit ch (List.mem_cons_of_mem c hch)
    cases hay with
    | nil => simp [likeMatch, hc.1, likeMatchAux, List.prefix_nil]
    | cons h t =>
      simp only [List.cons_append, likeMatch, if_neg hc.1, likeMatchAux, Bool.and_eq_true,
        Bool.or_eq_true, beq_iff_eq, ih hps t, List.cons_prefix_cons, List.append_eq]
      constructor
      · rintro ⟨h1 | h1, h2⟩
        · exact absurd h1 hc.2
        · exact ⟨h1.symm, h2⟩
      · rintro ⟨h1, h2⟩
        exact ⟨Or.inr h1.symm, h2⟩

theorem ilike_contains_literal_iff (s query : String)
    (hlit : ∀ ch ∈ lowerChars query, ch ≠ '%' ∧ ch ≠ '_') :
    ilike_contains s query = true ↔ lowerChars query <:+: lowerChars s := by
  have h1 : ilike_contains s query =
      anySuffix (likeMatch (lowerChars query ++ ['%'])) (lowerChars s) := by
    simp [ilike_contains, sqlPattern, likeMatch]
  rw [h1, anySuffix_eq_true_iff]
  constructor
  · rintro ⟨t, hts, hm⟩
    exact List.infix_iff_prefix_suffix.mpr
      ⟨t, (likeMatch_literal_percent (lowerChars query) hlit t).mp hm, hts⟩
  · intro hinf
    obtain ⟨t, hp, hts⟩ := List.infix_iff_prefix_suffix.mp hinf
    exact ⟨t, hts, (likeMatch_literal_percent (lowerChars query) hlit t).mpr hp⟩

theorem ilike_contains_empty (s : String) : ilike_contains s "" = true := by
  rw [ilike_contains_literal_iff s "" (by intro ch hch; simp [lowerChars] at hch)]
  exact List.nil_infix

/-- C9 counterexample: under the SQL wildcard semantics the code actually
ships, `search("_")` returns a contact none of whose fields contains an
underscore — `_` acts as a one-character wildcard inside the unescaped
`ilike` pattern — refuting the literal-substring characterization. -/
theorem search_contacts_wildcard_counterexample :
    Routes.search_contacts db0 alice "_" = [aliceContact] ∧
    hasSub (lowerChars aliceContact.first_name) (lowerChars "_") = false ∧
    hasSub (lowerChars aliceContact.last_name) (lowerChars "_") = false ∧
    hasSub (lowerChars aliceContact.email) (lowerChars "_") = false := by
  decide

/-- C9 amended: `search(query)` returns exactly the caller's contacts
whose first name, last name or email is matched case-insensitively by the
SQL pattern `%query%`, in which the query's own `%` and `_` act as
wildcards because the code interpolates the raw query unescaped; for
queries containing neither wildcard this is exactly case-insensitive
substring containment, and the empty query keeps every owned contact (and
no other user's contact, by the first part). -/
theorem search_contacts_sql_pattern_characterization :
    (∀ (db : Db) (cu : User) (query : String) (c : Contact),
       c ∈ Routes.search_contacts db cu query ↔
         c ∈ db.contacts ∧ c.user_id = cu.id ∧
           (ilike_contains c.first_name query = true ∨
            ilike_contains c.last_name query = true ∨
            ilike_contains c.email query = true)) ∧
    (∀ (query s : String), (∀ ch ∈ lowerChars query, ch ≠ '%' ∧ ch ≠ '_') →
       (ilike_contains s query = true ↔ lowerChars query <:+: lowerChars s)) ∧
    (∀ (db : Db) (cu : User),
       Routes.search_contacts db cu "" =
         db.contacts.filter (fun c => c.user_id == cu.id)) := by
  refine ⟨?_, fun query s h => ilike_contains_literal_iff s query h, ?_⟩
  · intro db cu query c
    simp [Routes.search_contacts, List.mem_filter, Bool.and_eq_true,
      Bool.or_eq_true, beq_iff_eq, and_assoc, or_assoc]
  · intro db cu
    unfold Routes.search_contacts
    apply List.filter_congr
    intro c hc
    simp [ilike_contains_empty]

/-- Witness for the amended C9: the wildcard-free bridge at a concrete
query, and the empty query over `db0`. -/
theorem search_contacts_sql_pattern_witness :
    (ilike_contains "Ann" "ann" = true ↔ lowerChars "ann" <:+: lowerChars "Ann") ∧
    Routes.search_contacts db0 alice "" =
      db0.contacts.filter (fun c => c.user_id == alice.id) :=
  ⟨search_contacts_sql_pattern_characterization.2.1 "ann" "Ann" (by decide),
   search_contacts_sql_pattern_characterization.2.2 db0 alice⟩


/-! ## Claim C1 -/

/-- C1 is a code bug: the spec's window policy (`spec_birthdayInWindow`,
written from the claim) includes a recurring January 2 birthday at
reference date December 28 and excludes December 20, but
`Routes.get_upcoming_birthdays` compares the stored birthday date with its
birth year against `[today, today+7]` and returns nothing at all for
contacts born in earlier years; the `MainApp` draft projects by month/day
yet omits the upper day bound whenever the window stays inside one month,
so at reference March 10 it returns a March 25 birthday that the claimed
7-day window excludes. -/
theorem upcoming_birthdays_code_bug :
    spec_birthdayInWindow ⟨2024, 12, 28⟩ ⟨1990, 1, 2⟩ = true ∧
    spec_birthdayInWindow ⟨2024, 12, 28⟩ ⟨1990, 12, 20⟩ = false ∧
    Routes.get_upcoming_birthdays dbBirthdays alice ⟨2024, 12, 28⟩ = [] ∧
    MainApp.get_upcoming_birthdays dbBirthdays.contacts ⟨2024, 12, 28⟩ = [cJan2] ∧
    spec_birthdayInWindow ⟨2024, 3, 10⟩ ⟨1990, 3, 25⟩ = false ∧
    MainApp.get_upcoming_birthdays dbBirthdays.contacts ⟨2024, 3, 10⟩ = [cMar25] := by
  decide

/-! ## Auth-layer lemmas -/

/-- The token `login` mints as access token for subject `email`. -/
def issuedAccessToken (cfg : AuthCfg) (email : String) (now : Nat) : Token :=
  create_access_token cfg { sub := some email, exp := none } none now

/-- The token `login` mints as refresh token for subject `email`. -/
def issuedRefreshToken (cfg : AuthCfg) (email : String) (now : Nat) : Token :=
  create_refresh_token cfg { sub := some email, exp := none } now

/-- The row mutation `db_user.refresh_token = refresh_token` performed by
`login`. -/
def persistRefresh (cfg : AuthCfg) (email : String) (now : Nat) (x : User) : User :=
  { x with refresh_token := some (issuedRefreshToken cfg email now) }

/-- Characterization of token decoding: it yields a payload exactly for
tokens signed with the configured secret whose expiry (if any) lies
strictly in the future. -/
theorem decode_token_eq_some_iff (cfg : AuthCfg) (t : Token) (now : Nat) (p : Payload) :
    decode_token cfg t now = some p ↔
      t = Token.signed p cfg.secret ∧ ∀ e, p.exp = some e → now < e := by
  constructor
  · intro h
    cases t with
    | malformed r => simp [decode_token] at h
    | signed claims key =>
      by_cases hk : key = cfg.secret
      · subst hk
        cases hexp : claims.exp with
        | none =>
          simp [decode_token, hexp] at h
          subst h
          exact ⟨rfl, fun e he => by rw [hexp] at he; cases he⟩
        | some e =>
          by_cases he : e ≤ now
          · simp [decode_token, hexp, he] at h
          · simp [decode_token, hexp, he] at h
            subst h
            refine ⟨rfl, fun e' he' => ?_⟩
            rw [hexp] at he'
            injection he' with he''
            omega
      · simp [decode_token, hk] at h
  · rintro ⟨rfl, hfresh⟩
    cases hexp : p.exp with
    | none => simp [decode_token, hexp]
    | some e =>
      have := hfresh e hexp
      simp [decode_token, hexp]
      omega

/-- One-step evaluation of `login` once the user row and the password check
are fixed; both the successful and the failing cache write hand back the
store already holding the freshly persisted refresh token. -/
theorem login_eq_of (cfg : AuthCfg) (db : Db) (email password : String)
    (u : User) (now : Nat) (cache_ok : Bool)
    (hfind : db.users.find? (fun x => x.email == email) = some u)
    (hpw : verify_password password u.hashed_password = true) :
    Routes.login cfg db email password now cache_ok =
      ((if cache_ok then
          Resp.ok { access_token := issuedAccessToken cfg u.email now,
                    refresh_token := issuedRefreshToken cfg u.email now }
        else Resp.pyError "redis connection error"),
       { db with users :=
           (updateFirst (fun x => x.email == email)
             (persistRefresh cfg u.email now) db.users) }) := by
  cases cache_ok <;>
    (simp [Routes.login, hfind, hpw, issuedAccessToken, issuedRefreshToken]; rfl)

/-- Success-path evaluation of `refresh`: a decodable token whose subject
resolves to a user storing exactly this token is answered with a fresh
access token and the echoed refresh token, and no store write. -/
theorem refresh_token_ok_of (cfg : AuthCfg) (db : Db) (t : Token) (now : Nat)
    (p : Payload) (s : String) (u : User)
    (hdec : decode_token cfg t now = some p) (hsub : p.sub = some s)
    (hfind : db.users.find? (fun x => x.email == s) = some u)
    (hstored : u.refresh_token = some t) :
    Routes.refresh_token cfg db t now =
      (Resp.ok { access_token := issuedAccessToken cfg u.email now,
                 refresh_token := t }, db) := by
  have hfal : p.isFalsy = false := by simp [Payload.isFalsy, hsub]
  simp [Routes.refresh_token, hdec, hfal, hsub, hfind, hstored, issuedAccessToken]

/-- Inversion of a successful `refresh`: success forces a decoded subject
whose user row stores exactly the presented token. -/
theorem refresh_token_ok_inversion (cfg : AuthCfg) (db : Db) (t : Token)
    (now : Nat) (pr : TokenPair)
    (h : (Routes.refresh_token cfg db t now).1 = Resp.ok pr) :
    ∃ p s u, decode_token cfg t now = some p ∧ p.sub = some s ∧
      db.users.find? (fun x => x.email == s) = some u ∧
      u.refresh_token = some t := by
  cases hdec : decode_token cfg t now with
  | none => simp [Routes.refresh_token, hdec] at h
  | some payload =>
    cases hfal : payload.isFalsy with
    | true => simp [Routes.refresh_token, hdec, hfal] at h
    | false =>
      cases hsub : payload.sub with
      | none => simp [Routes.refresh_token, hdec, hfal, hsub] at h
      | some s =>
        cases hfind : db.users.find? (fun x => x.email == s) with
        | none => simp [Routes.refresh_token, hdec, hfal, hsub, hfind] at h
        | some u =>
          by_cases hst : u.refresh_token = some t
          · exact ⟨payload, s, u, rfl, hsub, hfind, hst⟩
          · simp [Routes.refresh_token, hdec, hfal, hsub, hfind, hst] at h

/-- Case coverage of `refresh`: the result is a success, the uniform 401,
or the unhandled `KeyError` on a decoded payload without a subject; the
store is handed back unchanged in every case. -/
theorem refresh_token_result_cases (cfg : AuthCfg) (db : Db) (t : Token) (now : Nat) :
    (∃ pr, Routes.refresh_token cfg db t now = (Resp.ok pr, db)) ∨
    Routes.refresh_token cfg db t now =
      (Resp.httpError 401 "Invalid refresh token", db) ∨
    (Routes.refresh_token cfg db t now = (Resp.pyError "KeyError: sub", db) ∧
      ∃ p, decode_token cfg t now = some p ∧ p.sub = none) := by
  cases hdec : decode_token cfg t now with
  | none =>
    right; left
    simp [Routes.refresh_token, hdec]
  | some payload =>
    cases hfal : payload.isFalsy with
    | true =>
      right; left
      simp [Routes.refresh_token, hdec, hfal]
    | false =>
      cases hsub : payload.sub with
      | none =>
        right; right
        exact ⟨by simp [Routes.refresh_token, hdec, hfal, hsub], payload, rfl, hsub⟩
      | some s =>
        cases hfind : db.users.find? (fun x => x.email == s) with
        | none =>
          right; left
          simp [Routes.refresh_token, hdec, hfal, hsub, hfind]
        | some u =>
          by_cases hst : u.refresh_token = some t
          · left
            refine ⟨{ access_token := issuedAccessToken cfg u.email now,
                      refresh_token := t }, ?_⟩
            simp [Routes.refresh_token, hdec, hfal, hsub, hfind, hst, issuedAccessToken]
          · right; left
            simp [Routes.refresh_token, hdec, hfal, hsub, hfind, hst]

/-- A successful `refresh` with a token whose subject claim is `email`
forces the stored refresh token of the user row found under `email` to be
exactly the presented token. -/
theorem refresh_ok_forces_presented_token
    (cfg : AuthCfg) (db2 : Db) (t : Token) (later : Nat) (pr : TokenPair)
    (email : String) (w : User)
    (hfindw : db2.users.find? (fun x => x.email == email) = some w)
    (hsubj : t.subjectClaim = some email)
    (hok : (Routes.refresh_token cfg db2 t later).1 = Resp.ok pr) :
    w.refresh_token = some t := by
  obtain ⟨p, s, u', hdec', hsub', hfind', hstored'⟩ :=
    refresh_token_ok_inversion cfg db2 t later pr hok
  obtain ⟨ht, -⟩ := (decode_token_eq_some_iff cfg t later p).mp hdec'
  have hps : p.sub = some email := by
    rw [ht] at hsubj
    simpa [Token.subjectClaim] using hsubj
  have hs : s = email := by
    rw [hps] at hsub'
    injection hsub' with h
    exact h.symm
  subst hs
  have hw : some w = some u' := hfindw.symm.trans hfind'
  injection hw with hw'
  rw [hw']
  exact hstored'

/-- Fixture user holding a refresh token issued at time 0. -/
def rtCarol : Token := issuedRefreshToken cfg0 "c@x.com" 0

/-- User whose stored refresh token is `rtCarol`. -/
def carol : User :=
  { id := 3, email := "c@x.com", hashed_password := hash_password "secret3",
    is_verified := true, refresh_token := some rtCarol, avatar_url := none }

/-- Store containing only `carol`. -/
def db1 : Db :=
  { users := [carol], contacts := [], next_user_id := 4, next_contact_id := 1 }

/-! ## Claim C10 -/

/-- C10: `decode_token` is total — every token either decodes to its
payload (exactly when it is signed with the configured secret and its
expiry, if present, lies in the future) or yields `none`; malformed,
wrongly-signed and expired tokens all yield `none`, and at both call sites
an expired token is therefore answered with the uniform 401 with no
separate expiry branch. -/
theorem decode_token_total_no_raise (cfg : AuthCfg) :
    (∀ (t : Token) (now : Nat) (p : Payload),
       decode_token cfg t now = some p ↔
         t = Token.signed p cfg.secret ∧ ∀ e, p.exp = some e → now < e) ∧
    (∀ (raw : String) (now : Nat), decode_token cfg (Token.malformed raw) now = none) ∧
    (∀ (claims : Payload) (key : String) (now : Nat),
       key ≠ cfg.secret → decode_token cfg (Token.signed claims key) now = none) ∧
    (∀ (claims : Payload) (e now : Nat), claims.exp = some e → e ≤ now →
       decode_token cfg (Token.signed claims cfg.secret) now = none) ∧
    (∀ (db : Db) (claims : Payload) (e now : Nat), claims.exp = some e → e ≤ now →
       Routes.get_current_user cfg db (Token.signed claims cfg.secret) now =
           Resp.httpError 401 "Invalid token" ∧
         (Routes.refresh_token cfg db (Token.signed claims cfg.secret) now).1 =
           Resp.httpError 401 "Invalid refresh token") := by
  refine ⟨fun t now p => decode_token_eq_some_iff cfg t now p,
    fun raw now => rfl, ?_, ?_, ?_⟩
  · intro claims key now hk
    simp [decode_token, hk]
  · intro claims e now hexp he
    simp [decode_token, hexp, he]
  · intro db claims e now hexp he
    have hdec : decode_token cfg (Token.signed claims cfg.secret) now = none := by
      simp [decode_token, hexp, he]
    exact ⟨by simp [Routes.get_current_user, hdec],
           by simp [Routes.refresh_token, hdec]⟩

/-- Witness for C10: a wrongly-signed token and an expired token both
decode to `none` under the concrete configuration. -/
theorem decode_token_total_no_raise_witness :
    decode_token cfg0 (Token.signed { sub := some "a@x.com", exp := some 100 } "wrong") 0 = none ∧
    decode_token cfg0 (Token.signed { sub := some "a@x.com", exp := some 100 } "s3cret") 100 = none :=
  ⟨(decode_token_total_no_raise cfg0).2.2.1
      { sub := some "a@x.com", exp := some 100 } "wrong" 0 (by decide),
   (decode_token_total_no_raise cfg0).2.2.2.1
      { sub := some "a@x.com", exp := some 100 } 100 100 rfl (by decide)⟩

/-! ## Claim C5 -/

/-- C5: a valid `refresh` call — the token decodes, carries subject `s`,
and equals the stored refresh token of the user found under `s` — answers
with a fresh access token bound to the same subject and the presented
refresh token echoed back unchanged, and returns the store (the user's
row, its `refresh_token` field included) exactly as it was. -/
theorem refresh_echoes_token_and_preserves_store
    (cfg : AuthCfg) (db : Db) (t : Token) (now : Nat)
    (p : Payload) (s : String) (u : User)
    (hdec : decode_token cfg t now = some p) (hsub : p.sub = some s)
    (hfind : db.users.find? (fun x => x.email == s) = some u)
    (hstored : u.refresh_token = some t) :
    Routes.refresh_token cfg db t now =
      (Resp.ok { access_token := issuedAccessToken cfg u.email now,
                 refresh_token := t }, db) ∧
    u.email = s := by
  refine ⟨refresh_token_ok_of cfg db t now p s u hdec hsub hfind hstored, ?_⟩
  have := List.find?_some hfind
  simpa using this

/-- Witness for C5: `carol` refreshing with her stored token. -/
theorem refresh_echoes_token_witness :
    Routes.refresh_token cfg0 db1 rtCarol 10 =
      (Resp.ok { access_token := issuedAccessToken cfg0 "c@x.com" 10,
                 refresh_token := rtCarol }, db1) :=
  (refresh_echoes_token_and_preserves_store cfg0 db1 rtCarol 10
    { sub := some "c@x.com", exp := some (0 + REFRESH_TOKEN_EXPIRE_DAYS * 86400) }
    "c@x.com" carol (by decide) rfl (by decide) rfl).1

/-! ## Claim C3 -/

/-- C3: for a registered user with the correct password, `login` answers a
pair of fresh tokens both carrying subject `email`, and the returned
refresh token is exactly the value a subsequent `refresh` call must
present: presenting it succeeds, and any token with that subject accepted
by `refresh` is that very value. -/
theorem login_token_pair_matches_refresh
    (cfg : AuthCfg) (db : Db) (email password : String) (u : User) (now later : Nat)
    (hfind : db.users.find? (fun x => x.email == email) = some u)
    (hpw : verify_password password u.hashed_password = true)
    (hfresh : later < now + REFRESH_TOKEN_EXPIRE_DAYS * 86400) :
    ∃ db2 : Db,
      Routes.login cfg db email password now true =
        (Resp.ok { access_token := issuedAccessToken cfg email now,
                   refresh_token := issuedRefreshToken cfg email now }, db2) ∧
      (issuedAccessToken cfg email now).subjectClaim = some email ∧
      (issuedRefreshToken cfg email now).subjectClaim = some email ∧
      (Routes.refresh_token cfg db2 (issuedRefreshToken cfg email now) later).1 =
        Resp.ok { access_token := issuedAccessToken cfg email later,
                  refresh_token := issuedRefreshToken cfg email now } ∧
      (∀ (t : Token) (pr : TokenPair), t.subjectClaim = some email →
         (Routes.refresh_token cfg db2 t later).1 = Resp.ok pr →
         t = issuedRefreshToken cfg email now) := by
  have hemail : u.email = email := by
    have := List.find?_some hfind
    simpa using this
  subst hemail
  have hfind2 : (updateFirst (fun x => x.email == u.email)
        (persistRefresh cfg u.email now) db.users).find? (fun x => x.email == u.email) =
      some (persistRefresh cfg u.email now u) := by
    rw [find?_updateFirst (fun x => x.email == u.email)
      (persistRefresh cfg u.email now) db.users (fun a h => h), hfind]
    rfl
  have hdec : decode_token cfg (issuedRefreshToken cfg u.email now) later =
      some { sub := some u.email,
             exp := some (now + REFRESH_TOKEN_EXPIRE_DAYS * 86400) } := by
    rw [decode_token_eq_some_iff]
    refine ⟨rfl, fun e he => ?_⟩
    injection he with he'
    omega
  refine ⟨{ db with users :=
      (updateFirst (fun x => x.email == u.email)
        (persistRefresh cfg u.email now) db.users) },
    login_eq_of cfg db u.email password u now true hfind hpw, rfl, rfl, ?_, ?_⟩
  · have hok := refresh_token_ok_of cfg
      { db with users :=
          (updateFirst (fun x => x.email == u.email)
            (persistRefresh cfg u.email now) db.users) }
      (issuedRefreshToken cfg u.email now) later
      { sub := some u.email, exp := some (now + REFRESH_TOKEN_EXPIRE_DAYS * 86400) }
      u.email (persistRefresh cfg u.email now u) hdec rfl hfind2 rfl
    rw [hok]
    rfl
  · intro t pr hsubj hok
    have hstored := refresh_ok_forces_presented_token cfg
      { db with users :=
          (updateFirst (fun x => x.email == u.email)
            (persistRefresh cfg u.email now) db.users) }
      t later pr u.email (persistRefresh cfg u.email now u) hfind2 hsubj hok
    have h1 : some (issuedRefreshToken cfg u.email now) = some t := hstored
    injection h1 with h
    exact h.symm

/-- Witness for C3: `alice` logging in and refreshing with the returned
token. -/
theorem login_token_pair_matches_refresh_witness :
    ∃ db2 : Db,
      Routes.login cfg0 db0 "a@x.com" "secret1" 0 true =
        (Resp.ok { access_token := issuedAccessToken cfg0 "a@x.com" 0,
                   refresh_token := issuedRefreshToken cfg0 "a@x.com" 0 }, db2) ∧
      (issuedAccessToken cfg0 "a@x.com" 0).subjectClaim = some "a@x.com" ∧
      (issuedRefreshToken cfg0 "a@x.com" 0).subjectClaim = some "a@x.com" ∧
      (Routes.refresh_token cfg0 db2 (issuedRefreshToken cfg0 "a@x.com" 0) 60).1 =
        Resp.ok { access_token := issuedAccessToken cfg0 "a@x.com" 60,
                  refresh_token := issuedRefreshToken cfg0 "a@x.com" 0 } ∧
      (∀ (t : Token) (pr : TokenPair), t.subjectClaim = some "a@x.com" →
         (Routes.refresh_token cfg0 db2 t 60).1 = Resp.ok pr →
         t = issuedRefreshToken cfg0 "a@x.com" 0) :=
  login_token_pair_matches_refresh cfg0 db0 "a@x.com" "secret1" alice 0 60
    (by decide) (by decide) (by decide)

/-! ## Claim C4 -/

/-- C4: a successful login persists the newly issued refresh token as the
user's sole valid one, and a `refresh` that presents any other token with
that subject — in particular a well-signed, unexpired token superseded by
the later login — is rejected with the uniform 401. -/
theorem superseded_refresh_token_rejected
    (cfg : AuthCfg) (db : Db) (email password : String) (u : User)
    (now later : Nat) (rt1 : Token)
    (hfind : db.users.find? (fun x => x.email == email) = some u)
    (hpw : verify_password password u.hashed_password = true)
    (hsubj : rt1.subjectClaim = some email)
    (hne : rt1 ≠ issuedRefreshToken cfg email now) :
    (Routes.login cfg db email password now true).2.users.find?
        (fun x => x.email == email) = some (persistRefresh cfg email now u) ∧
    (Routes.refresh_token cfg (Routes.login cfg db email password now true).2
        rt1 later).1 = Resp.httpError 401 "Invalid refresh token" := by
  have hemail : u.email = email := by
    have := List.find?_some hfind
    simpa using this
  subst hemail
  have h2 : (Routes.login cfg db u.email password now true).2 =
      { db with users :=
          (updateFirst (fun x => x.email == u.email)
            (persistRefresh cfg u.email now) db.users) } := by
    rw [login_eq_of cfg db u.email password u now true hfind hpw]
  have hfind2 : (updateFirst (fun x => x.email == u.email)
        (persistRefresh cfg u.email now) db.users).find? (fun x => x.email == u.email) =
      some (persistRefresh cfg u.email now u) := by
    rw [find?_updateFirst (fun x => x.email == u.email)
      (persistRefresh cfg u.email now) db.users (fun a h => h), hfind]
    rfl
  rw [h2]
  refine ⟨hfind2, ?_⟩
  rcases refresh_token_result_cases cfg
      { db with users :=
          (updateFirst (fun x => x.email == u.email)
            (persistRefresh cfg u.email now) db.users) } rt1 later with
    ⟨pr, hok⟩ | h401 | ⟨-, p, hdecp, hsubnone⟩
  · exfalso
    have hok1 : (Routes.refresh_token cfg
        { db with users :=
            (updateFirst (fun x => x.email == u.email)
              (persistRefresh cfg u.email now) db.users) } rt1 later).1 = Resp.ok pr := by
      rw [hok]
    have hstored := refresh_ok_forces_presented_token cfg
      { db with users :=
          (updateFirst (fun x => x.email == u.email)
            (persistRefresh cfg u.email now) db.users) }
      rt1 later pr u.email (persistRefresh cfg u.email now u) hfind2 hsubj hok1
    have h1 : some (issuedRefreshToken cfg u.email now) = some rt1 := hstored
    injection h1 with h
    exact hne h.symm
  · rw [h401]
  · exfalso
    obtain ⟨ht, -⟩ := (decode_token_eq_some_iff cfg rt1 later p).mp hdecp
    rw [ht] at hsubj
    simp [Token.subjectClaim, hsubnone] at hsubj

/-- Witness for C4: a well-signed, unexpired refresh token issued at a
different time than `alice`'s latest login is rejected. -/
theorem superseded_refresh_token_rejected_witness :
    (Routes.login cfg0 db0 "a@x.com" "secret1" 0 true).2.users.find?
        (fun x => x.email == "a@x.com") = some (persistRefresh cfg0 "a@x.com" 0 alice) ∧
    (Routes.refresh_token cfg0 (Routes.login cfg0 db0 "a@x.com" "secret1" 0 true).2
        (issuedRefreshToken cfg0 "a@x.com" 999) 60).1 =
      Resp.httpError 401 "Invalid refresh token" :=
  superseded_refresh_token_rejected cfg0 db0 "a@x.com" "secret1" alice 0 60
    (issuedRefreshToken cfg0 "a@x.com" 999) (by decide) (by decide) rfl (by decide)

/-! ## Claim C6 -/

/-- C6 counterexample: with correct credentials but a failing cache write,
`login` does not answer the token pair — the redis error propagates out of
the handler, because the `redis_client.set` call is not guarded by any
`try`/`except`. -/
theorem login_cache_failure_counterexample :
    (Routes.login cfg0 db0 "a@x.com" "secret1" 0 false).1 =
      Resp.pyError "redis connection error" ∧
    (Routes.login cfg0 db0 "a@x.com" "secret1" 0 false).1 ≠
      Resp.ok { access_token := issuedAccessToken cfg0 "a@x.com" 0,
                refresh_token := issuedRefreshToken cfg0 "a@x.com" 0 } := by
  decide

/-- C6 amended: with correct credentials, `login` answers the token pair
when the cache write succeeds; when the cache write fails the failure
propagates and `login` fails — the refresh token having already been
persisted, as the store after a failing cache write equals the store after
a successful one. -/
theorem login_cache_failure_propagates
    (cfg : AuthCfg) (db : Db) (email password : String) (u : User) (now : Nat)
    (hfind : db.users.find? (fun x => x.email == email) = some u)
    (hpw : verify_password password u.hashed_password = true) :
    (Routes.login cfg db email password now true).1 =
      Resp.ok { access_token := issuedAccessToken cfg u.email now,
                refresh_token := issuedRefreshToken cfg u.email now } ∧
    (Routes.login cfg db email password now false).1 =
      Resp.pyError "redis connection error" ∧
    (Routes.login cfg db email password now false).2 =
      (Routes.login cfg db email password now true).2 := by
  rw [login_eq_of cfg db email password u now true hfind hpw,
      login_eq_of cfg db email password u now false hfind hpw]
  exact ⟨rfl, rfl, rfl⟩

/-- Witness for the amended C6 at `alice`'s concrete login. -/
theorem login_cache_failure_propagates_witness :
    (Routes.login cfg0 db0 "a@x.com" "secret1" 5 true).1 =
      Resp.ok { access_token := issuedAccessToken cfg0 "a@x.com" 5,
                refresh_token := issuedRefreshToken cfg0 "a@x.com" 5 } ∧
    (Routes.login cfg0 db0 "a@x.com" "secret1" 5 false).1 =
      Resp.pyError "redis connection error" :=
  ⟨(login_cache_failure_propagates cfg0 db0 "a@x.com" "secret1" alice 5
      (by decide) (by decide)).1,
   (login_cache_failure_propagates cfg0 db0 "a@x.com" "secret1" alice 5
      (by decide) (by decide)).2.1⟩

/-! ## Claim C7 -/

/-- C7 counterexample: a token signed with the configured secret whose
payload carries an expiry but no `sub` claim makes `get_current_user`
crash with an unhandled `KeyError` on `payload["sub"]` instead of
answering 401. -/
theorem get_current_user_keyerror_counterexample :
    Routes.get_current_user cfg0 db0
        (Token.signed { sub := none, exp := some 9999999 } "s3cret") 0 =
      Resp.pyError "KeyError: sub" ∧
    (Resp.pyError "KeyError: sub" : Resp User) ≠ Resp.httpError 401 "Invalid token" ∧
    (Resp.pyError "KeyError: sub" : Resp User) ≠ Resp.httpError 401 "User not found" := by
  decide

/-- C7 amended: `get_current_user` answers 401 on decode failure and on a
decoded-but-falsy (empty) payload, 401 when the subject resolves to no
user, and the user itself when it resolves; but a decoded non-falsy
payload lacking the `sub` claim raises an unhandled `KeyError` rather than
answering 401. -/
theorem get_current_user_amended
    (cfg : AuthCfg) (db : Db) (token : Token) (now : Nat) :
    (decode_token cfg token now = none →
       Routes.get_current_user cfg db token now = Resp.httpError 401 "Invalid token") ∧
    (∀ p, decode_token cfg token now = some p → p.isFalsy = true →
       Routes.get_current_user cfg db token now = Resp.httpError 401 "Invalid token") ∧
    (∀ p s, decode_token cfg token now = some p → p.sub = some s →
       db.users.find? (fun x => x.email == s) = none →
       Routes.get_current_user cfg db token now = Resp.httpError 401 "User not found") ∧
    (∀ p s u, decode_token cfg token now = some p → p.sub = some s →
       db.users.find? (fun x => x.email == s) = some u →
       Routes.get_current_user cfg db token now = Resp.ok u) ∧
    (∀ p, decode_token cfg token now = some p → p.isFalsy = false → p.sub = none →
       Routes.get_current_user cfg db token now = Resp.pyError "KeyError: sub") := by
  refine ⟨?_, ?_, ?_, ?_, ?_⟩
  · intro hdec
    simp [Routes.get_current_user, hdec]
  · intro p hdec hfal
    simp [Routes.get_current_user, hdec, hfal]
  · intro p s hdec hsub hfind
    have hfal : p.isFalsy = false := by simp [Payload.isFalsy, hsub]
    simp [Routes.get_current_user, hdec, hfal, hsub, hfind]
  · intro p s u hdec hsub hfind
    have hfal : p.isFalsy = false := by simp [Payload.isFalsy, hsub]
    simp [Routes.get_current_user, hdec, hfal, hsub, hfind]
  · intro p hdec hfal hsub
    simp [Routes.get_current_user, hdec, hfal, hsub]

/-- Witness for the amended C7: a malformed token is answered 401, a valid
token resolving to `alice` is accepted, and a sub-less payload crashes. -/
theorem get_current_user_amended_witness :
    Routes.get_current_user cfg0 db0 (Token.malformed "zzz") 0 =
      Resp.httpError 401 "Invalid token" ∧
    Routes.get_current_user cfg0 db0
        (Token.signed { sub := some "a@x.com", exp := some 100 } "s3cret") 0 =
      Resp.ok alice ∧
    Routes.get_current_user cfg0 db0
        (Token.signed { sub := none, exp := some 100 } "s3cret") 0 =
      Resp.pyError "KeyError: sub" :=
  ⟨(get_current_user_amended cfg0 db0 (Token.malformed "zzz") 0).1 rfl,
   (get_current_user_amended cfg0 db0
      (Token.signed { sub := some "a@x.com", exp := some 100 } "s3cret") 0).2.2.2.1
      { sub := some "a@x.com", exp := some 100 } "a@x.com" alice (by decide) rfl (by decide),
   (get_current_user_amended cfg0 db0
      (Token.signed { sub := none, exp := some 100 } "s3cret") 0).2.2.2.2
      { sub := none, exp := some 100 } (by decide) rfl rfl⟩
